import Mathlib

/-!
Verification development for the wthr.lol weather aggregation service.

The Go sources are embedded shallowly:

* Go `float64` values (observation temperatures, coordinates) are modelled
  as exact rationals; `math.Round` (round half away from zero) becomes
  `goRound`.
* Go slices are modelled as `Option (List _)`: `none` is a nil slice,
  `some xs` an initialized slice with elements `xs` (so `make([]T, 0)` is
  `some []` and the difference between nil and empty is preserved).
* `time.Time` values are modelled as integer timestamps (seconds); the
  fixed 1 hour TTL becomes `3600`.
* Functions returning `(T, error)` become `Except String T`; upstream HTTP
  calls inside `fetchFreshWeather` / `GetWeather` are modelled as an
  environment record holding each call's outcome, and the sequence of call
  sites actually executed is returned as a trace.
-/

namespace Wthr

/-- One forecast period, as in the `periods` array of the NWS forecast
response (`ForecastResponse` in client.go). `popValue` is
`ProbabilityOfPrecipitation.Value`. -/
structure Period where
  name : String
  startTime : String
  isDaytime : Bool
  temperature : Int
  temperatureUnit : String
  popValue : Int
  windSpeed : String
  windDirection : String
  icon : String
  shortForecast : String
  detailedForecast : String
deriving Repr, DecidableEq

/-- `ForecastResponse` from client.go: the list of periods. -/
structure ForecastResponse where
  periods : List Period
deriving Repr, DecidableEq

/-- Properties of one alert feature (`AlertsResponse.Features[i].Properties`). -/
structure AlertFeature where
  event : String
  headline : String
  description : String
  severity : String
  areaDesc : String
deriving Repr, DecidableEq

/-- `AlertsResponse` from client.go. -/
structure AlertsResponse where
  features : List AlertFeature
deriving Repr, DecidableEq

/-- The temperature part of an observation: nullable value plus unit code.
Go's `*float64` becomes `Option ℚ` (NaN is not representable in the exact
rational model, so the `math.IsNaN` guard of the source is always false
here). -/
structure TemperatureReading where
  value : Option ℚ
  unitCode : String
deriving Repr, DecidableEq

/-- `ObservationResponse` from client.go. -/
structure ObservationResponse where
  temperature : TemperatureReading
  textDescription : String
deriving Repr, DecidableEq

/-- `CurrentCondition` from types.go. -/
structure CurrentCondition where
  temperature : Int
  temperatureUnit : String
  shortForecast : String
  precipitation : Int
  windSpeed : String
  windDirection : String
  icon : String
  highTemp : Int
  lowTemp : Int
deriving Repr, DecidableEq

/-- Go zero value of `CurrentCondition`. -/
def CurrentCondition.zero : CurrentCondition :=
  { temperature := 0, temperatureUnit := "", shortForecast := "",
    precipitation := 0, windSpeed := "", windDirection := "", icon := "",
    highTemp := 0, lowTemp := 0 }

/-- `DailyForecast` from types.go. -/
structure DailyForecast where
  name : String
  highTemp : Int
  lowTemp : Int
  temperatureUnit : String
  shortForecast : String
  icon : String
  precipChance : Int
deriving Repr, DecidableEq

/-- `HourlyForecast` entry of the snapshot. -/
structure HourlyForecast where
  name : String
  temperature : Int
  temperatureUnit : String
  shortForecast : String
  icon : String
  precipChance : Int
deriving Repr, DecidableEq

/-- `Alert` from types.go. -/
structure Alert where
  event : String
  headline : String
  description : String
  severity : String
  areaDesc : String
deriving Repr, DecidableEq

/-- `WeatherData` from types.go, the snapshot.  The three list fields are
`Option` so that a nil Go slice (`none`) is distinguished from an
initialized one (`some xs`). -/
structure WeatherData where
  current : CurrentCondition
  forecast : Option (List DailyForecast)
  hourly : Option (List HourlyForecast)
  alerts : Option (List Alert)
  cachedAt : Int
  expiresAt : Int
  location : String
deriving Repr, DecidableEq

/-! ### String helpers mirroring the `strings` package -/

/-- Does the character list start with the given pattern? -/
def chStarts : List Char → List Char → Bool
  | _, [] => true
  | [], _ :: _ => false
  | c :: cs, d :: ds => c == d && chStarts cs ds

/-- `strings.Contains s sub` over character lists. -/
def chContains : List Char → List Char → Bool
  | [], pat => chStarts [] pat
  | c :: cs, pat => chStarts (c :: cs) pat || chContains cs pat

/-- `strings.Contains`. -/
def goContains (s sub : String) : Bool :=
  chContains s.toList sub.toList

/-- `strings.HasSuffix`. -/
def goHasSuffix (s suf : String) : Bool :=
  chStarts s.toList.reverse suf.toList.reverse

/-- Index of the last occurrence of `c`, as `strings.LastIndex` restricted
to a single character (the source only looks for `":"`; unit codes are
ASCII, so byte and character indices agree). -/
def lastIdxOf (c : Char) : List Char → Option Nat
  | [] => none
  | d :: ds =>
    match lastIdxOf c ds with
    | some i => some (i + 1)
    | none => if d == c then some 0 else none

/-! ### Rounding (math.Round) -/

/-- `math.Round`: round half away from zero, then `int(...)`. -/
def goRound (q : ℚ) : Int :=
  if 0 ≤ q then ⌊q + 1 / 2⌋ else ⌈q - 1 / 2⌉

/-! ### mapIcon -/

/-- `mapIcon` from service.go: keyword table from icon URL to Material
Symbol name, with day/night variants. -/
def mapIcon (iconURL : String) (isDaytime : Bool) : String :=
  if goContains iconURL "/skc" || goContains iconURL "/few" then
    if !isDaytime then "clear_night" else "sunny"
  else if goContains iconURL "/sct" || goContains iconURL "/bkn" then
    if !isDaytime then "partly_cloudy_night" else "partly_cloudy_day"
  else if goContains iconURL "/ovc" then "cloud"
  else if goContains iconURL "/rain" || goContains iconURL "/showers" then "rainy"
  else if goContains iconURL "/tsra" then "thunderstorm"
  else if goContains iconURL "/snow" then "weather_snowy"
  else if goContains iconURL "/fog" then "foggy"
  else if goContains iconURL "/wind" then "air"
  else "thermostat"

/-! ### formatHourlyLabel

`formatHourlyLabel` parses an RFC3339 timestamp with `time.Parse` and
formats it as `"3 PM"`; on empty or unparsable input it returns the
fallback.  The parse is modelled as a strict RFC3339 reader with the same
field-range validation Go performs; the formatted label only depends on
the hour field, with the timestamp's own zone offset retained. -/

/-- Decimal digit value of a character, if any. -/
def digitVal (c : Char) : Option Nat :=
  if '0' ≤ c && c ≤ '9' then some (c.toNat - '0'.toNat) else none

/-- Read exactly `n` digits from the front, returning their value and the
rest. -/
def readDigits : Nat → List Char → Option (Nat × List Char)
  | 0, cs => some (0, cs)
  | n + 1, [] => (fun _ => none) n
  | n + 1, c :: cs =>
    match digitVal c with
    | none => none
    | some d =>
      match readDigits n cs with
      | none => none
      | some (v, rest) => some (d * 10 ^ n + v, rest)

/-- Expect a literal character. -/
def expectCh (c : Char) : List Char → Option (List Char)
  | [] => none
  | d :: ds => if d == c then some ds else none

/-- Is `y` a leap year (Gregorian)? -/
def isLeap (y : Nat) : Bool :=
  (y % 4 == 0 && y % 100 != 0) || y % 400 == 0

/-- Days in month `m` of year `y`. -/
def daysIn (y m : Nat) : Nat :=
  if m == 2 then (if isLeap y then 29 else 28)
  else if m == 4 || m == 6 || m == 9 || m == 11 then 30
  else 31

/-- Skip an optional fractional-seconds field: a dot followed by at least
one digit (Go accepts this even though the RFC3339 layout has none). -/
def skipFrac : List Char → Option (List Char)
  | '.' :: c :: cs =>
    match digitVal c with
    | none => none
    | some _ => some (cs.dropWhile (fun d => (digitVal d).isSome))
  | cs => some cs

/-- Zone part: `Z` or `±hh:mm`. Returns the remaining characters. -/
def readZone : List Char → Option (List Char)
  | 'Z' :: cs => some cs
  | c :: cs =>
    if c == '+' || c == '-' then
      match readDigits 2 cs with
      | none => none
      | some (zh, cs1) =>
        match expectCh ':' cs1 with
        | none => none
        | some cs2 =>
          match readDigits 2 cs2 with
          | none => none
          | some (zm, cs3) => if zh ≤ 23 && zm ≤ 59 then some cs3 else none
    else none
  | [] => none

/-- Parse an RFC3339 timestamp, returning the hour-of-day field (in the
timestamp's own zone) on success.  Mirrors the validation of
`time.Parse(time.RFC3339, s)`. -/
def parseRFC3339Hour (s : String) : Option Nat :=
  match readDigits 4 s.toList with
  | none => none
  | some (y, r1) =>
    match expectCh '-' r1 with
    | none => none
    | some r2 =>
      match readDigits 2 r2 with
      | none => none
      | some (mo, r3) =>
        match expectCh '-' r3 with
        | none => none
        | some r4 =>
          match readDigits 2 r4 with
          | none => none
          | some (d, r5) =>
            match expectCh 'T' r5 with
            | none => none
            | some r6 =>
              match readDigits 2 r6 with
              | none => none
              | some (h, r7) =>
                match expectCh ':' r7 with
                | none => none
                | some r8 =>
                  match readDigits 2 r8 with
                  | none => none
                  | some (mi, r9) =>
                    match expectCh ':' r9 with
                    | none => none
                    | some r10 =>
                      match readDigits 2 r10 with
                      | none => none
                      | some (se, r11) =>
                        match skipFrac r11 with
                        | none => none
                        | some r12 =>
                          match readZone r12 with
                          | none => none
                          | some r13 =>
                            if r13 == [] && 1 ≤ mo && mo ≤ 12 &&
                                1 ≤ d && d ≤ daysIn y mo &&
                                h ≤ 23 && mi ≤ 59 && se ≤ 59 then
                              some h
                            else none

/-- Render an hour-of-day as Go's `"3 PM"` format (12-hour clock, no
leading zero). -/
def hourLabel (h : Nat) : String :=
  if h == 0 then "12 AM"
  else if h < 12 then toString h ++ " AM"
  else if h == 12 then "12 PM"
  else toString (h - 12) ++ " PM"

/-- `formatHourlyLabel` from service.go. -/
def formatHourlyLabel (startTime fallback : String) : String :=
  if startTime == "" then fallback
  else
    match parseRFC3339Hour startTime with
    | none => fallback
    | some h => hourLabel h

/-! ### observationTemperature -/

/-- Display unit selection of the default branch of
`observationTemperature`: the substring after the last colon when a colon
exists and is not the final character, else the raw code. -/
def defaultDisplayUnit (unitCode : String) : String :=
  match lastIdxOf ':' unitCode.toList with
  | some idx =>
    if idx + 1 < unitCode.toList.length then
      String.mk (unitCode.toList.drop (idx + 1))
    else unitCode
  | none => unitCode

/-- `observationTemperature` from service.go.  The Go function returns
`(int, string, bool)`; the `bool = false` cases become `none`. -/
def observationTemperature (obs : Option ObservationResponse) :
    Option (Int × String) :=
  match obs with
  | none => none
  | some o =>
    match o.temperature.value with
    | none => none
    | some temp =>
      let unitCode := o.temperature.unitCode
      if goHasSuffix unitCode "degC" then
        some (goRound (temp * 9 / 5 + 32), "F")
      else if goHasSuffix unitCode "degF" then
        some (goRound temp, "F")
      else
        some (goRound temp, defaultDisplayUnit unitCode)

/-! ### transform -/

/-- One hourly entry built from a period (body of the hourly loop in
`transform`). -/
def mkHourly (p : Period) : HourlyForecast :=
  { name := formatHourlyLabel p.startTime p.name,
    temperature := p.temperature,
    temperatureUnit := p.temperatureUnit,
    shortForecast := p.shortForecast,
    icon := mapIcon p.icon p.isDaytime,
    precipChance := p.popValue }

/-- The hourly loop of `transform`: `for i, p := range periods`, stopping
once `i >= 5`. -/
def hourlyLoop : List Period → Nat → List HourlyForecast
  | [], _ => []
  | p :: rest, i => if 5 ≤ i then [] else mkHourly p :: hourlyLoop rest (i + 1)

/-- Current conditions built from a period (fields not mentioned in the Go
composite literal stay at their zero value). -/
def mkCurrent (p : Period) : CurrentCondition :=
  { temperature := p.temperature,
    temperatureUnit := p.temperatureUnit,
    shortForecast := p.shortForecast,
    precipitation := p.popValue,
    windSpeed := p.windSpeed,
    windDirection := p.windDirection,
    icon := mapIcon p.icon p.isDaytime,
    highTemp := 0, lowTemp := 0 }

/-- The fresh `day` entry built at the top of each daily-loop iteration
(high and low both initialized to the period's own temperature). -/
def mkDay (p : Period) : DailyForecast :=
  { name := p.name,
    temperatureUnit := p.temperatureUnit,
    icon := mapIcon p.icon p.isDaytime,
    shortForecast := p.shortForecast,
    precipChance := p.popValue,
    highTemp := p.temperature,
    lowTemp := p.temperature }

/-- The paired day entry: a daytime period followed by a nighttime one.
The night temperature becomes the low and the precipitation chance is
raised to the night value when larger. -/
def mkPairedDay (p next : Period) : DailyForecast :=
  { mkDay p with
    lowTemp := next.temperature,
    precipChance :=
      if next.popValue > p.popValue then next.popValue else p.popValue }

/-- The daily-forecast loop of `transform`: walk the periods with a
`processedDays` counter; a daytime period followed by a nighttime one is
consumed as a pair, anything else stands alone; stop once 5 entries were
produced. -/
def dailyLoop : List Period → Nat → List DailyForecast
  | [], _ => []
  | [p], _ => [mkDay p]
  | p :: next :: rest, produced =>
    if p.isDaytime && !next.isDaytime then
      let day := mkPairedDay p next
      if 5 ≤ produced + 1 then [day] else day :: dailyLoop rest (produced + 1)
    else
      let day := mkDay p
      if 5 ≤ produced + 1 then [day]
      else day :: dailyLoop (next :: rest) (produced + 1)

/-- First period of an optional forecast response, when the response is
present and its period list nonempty (`x != nil && len(...) > 0`). -/
def firstPeriod (o : Option ForecastResponse) : Option Period :=
  o.bind (fun f => f.periods.head?)

/-- The alerts loop of `transform`: one `Alert` per feature, in order. -/
def alertsLoop : List AlertFeature → List Alert
  | [] => []
  | f :: rest =>
    { event := f.event, headline := f.headline, description := f.description,
      severity := f.severity, areaDesc := f.areaDesc } :: alertsLoop rest

/-- The initial snapshot built at the top of `transform`: zero current
conditions, initialized-empty lists, fixed 1 hour expiry. -/
def initWD (now : Int) : WeatherData :=
  { current := CurrentCondition.zero,
    forecast := some [], hourly := some [], alerts := some [],
    cachedAt := now, expiresAt := now + 3600, location := "" }

/-- The hourly block of `transform` (`if hc != nil { for ... }`): append
the hourly loop's entries to the hourly list. -/
def addHourly (hc : Option ForecastResponse) (wd : WeatherData) : WeatherData :=
  match hc with
  | some h => { wd with hourly := some (wd.hourly.getD [] ++ hourlyLoop h.periods 0) }
  | none => wd

/-- The current-conditions block of `transform`: first hourly period if
present, else first daily period, else leave the zero value. -/
def setCurrent (hc fc : Option ForecastResponse) (wd : WeatherData) : WeatherData :=
  match firstPeriod hc with
  | some p => { wd with current := mkCurrent p }
  | none =>
    match firstPeriod fc with
    | some p => { wd with current := mkCurrent p }
    | none => wd

/-- The daily-forecast block of `transform` (`if fc != nil { ... }`):
derive today's high/low from the first (and second, when present) period
and append the daily loop's entries to the forecast list. -/
def applyDaily (fc : Option ForecastResponse) (wd : WeatherData) : WeatherData :=
  match fc with
  | none => wd
  | some f =>
    match f.periods with
    | [] => wd
    | p0 :: rest =>
      let high := p0.temperature
      let low := p0.temperature
      let hl :=
        match rest with
        | [] => (high, low)
        | p1 :: _ =>
          ((if p1.temperature > high then p1.temperature else high),
           (if p1.temperature < low then p1.temperature else low))
      { wd with
        current := { wd.current with highTemp := hl.1, lowTemp := hl.2 },
        forecast := some (wd.forecast.getD [] ++ dailyLoop (p0 :: rest) 0) }

/-- The live-observation override of `transform`: when the observation
carries a usable temperature, replace only the current temperature and
its unit. -/
def applyObs (obs : Option ObservationResponse) (wd : WeatherData) : WeatherData :=
  match observationTemperature obs with
  | some tu =>
    { wd with current :=
        { wd.current with temperature := tu.1, temperatureUnit := tu.2 } }
  | none => wd

/-- The alerts block of `transform`: append one alert per feature. -/
def addAlerts (al : AlertsResponse) (wd : WeatherData) : WeatherData :=
  { wd with alerts := some (wd.alerts.getD [] ++ alertsLoop al.features) }

/-- `transform` from service.go (the four-argument version): build the
snapshot from the daily forecast, hourly forecast, alerts and latest
observation, applying the blocks in source order.  The Go signature
returns `(*WeatherData, error)`; the error result is kept as `Except`,
and the source's only return is `return wd, nil`. -/
def transform (now : Int) (fc hc : Option ForecastResponse)
    (al : AlertsResponse) (obs : Option ObservationResponse) :
    Except String WeatherData :=
  .ok (addAlerts al (applyObs obs (applyDaily fc (setCurrent hc fc (addHourly hc (initWD now))))))

/-! ### The service layer: fetchFreshWeather and GetWeather -/

/-- The upstream call sites of one fresh fetch, in source order. -/
inductive UpCall where
  | pointMeta
  | hourlyForecast
  | obsStations
  | latestObs
  | dailyForecast
  | alertsCall
  | reverseGeo
deriving Repr, DecidableEq

/-- The fields of the point-metadata response used by the service
(`PointResponse.Properties`). -/
structure PointProps where
  forecast : String
  forecastHourly : String
  observationStations : String
deriving Repr, DecidableEq

/-- Outcomes of the upstream calls a fresh fetch may issue: the
environment against which `fetchFreshWeather` runs.  `forecastAt` is
`GetForecast` as a function of the URL (used for both the hourly and the
daily forecast), `latestObsAt` is `GetLatestObservation` as a function of
the station. -/
structure FetchEnv where
  now : Int
  pointMeta : Except String PointProps
  forecastAt : String → Except String ForecastResponse
  stations : Except String (List String)
  latestObsAt : String → Except String ObservationResponse
  alertsRes : Except String AlertsResponse
  reverseGeo : Except String String

/-- Step A.1 of `fetchFreshWeather`: best-effort hourly forecast, only
attempted when the hourly URL is nonempty.  Returns the optional response
and the call-site trace. -/
def hourlyFetch (env : FetchEnv) (pt : PointProps) :
    Option ForecastResponse × List UpCall :=
  if pt.forecastHourly ≠ "" then
    match env.forecastAt pt.forecastHourly with
    | .error _ => (none, [.hourlyForecast])
    | .ok h => (some h, [.hourlyForecast])
  else (none, [])

/-- Step A.2 of `fetchFreshWeather`: best-effort observation chain —
stations list, then the latest observation of the first station. -/
def obsFetch (env : FetchEnv) (pt : PointProps) :
    Option ObservationResponse × List UpCall :=
  if pt.observationStations ≠ "" then
    match env.stations with
    | .error _ => (none, [.obsStations])
    | .ok ss =>
      match ss with
      | [] => (none, [.obsStations])
      | s0 :: _ =>
        match env.latestObsAt s0 with
        | .error _ => (none, [.obsStations, .latestObs])
        | .ok o => (some o, [.obsStations, .latestObs])
  else (none, [])

/-- `fetchFreshWeather` from service.go: point metadata (fatal), hourly
forecast (best effort), observation chain (best effort), daily forecast
(fatal), alerts (best effort, empty on failure), transform, reverse
geocode (best effort).  Returns the result together with the trace of
call sites executed. -/
def fetchFreshWeather (env : FetchEnv) :
    Except String WeatherData × List UpCall :=
  match env.pointMeta with
  | .error e => (.error ("failed to get point metadata: " ++ e), [.pointMeta])
  | .ok pt =>
    let hcT := hourlyFetch env pt
    let obsT := obsFetch env pt
    let pre : List UpCall := [.pointMeta] ++ hcT.2 ++ obsT.2
    match env.forecastAt pt.forecast with
    | .error e => (.error ("failed to get forecast: " ++ e), pre ++ [.dailyForecast])
    | .ok fc =>
      let al :=
        match env.alertsRes with
        | .error _ => ({ features := [] } : AlertsResponse)
        | .ok a => a
      let tr := pre ++ [.dailyForecast, .alertsCall]
      match transform env.now (some fc) hcT.1 al obsT.1 with
      | .error e => (.error e, tr)
      | .ok wd =>
        match env.reverseGeo with
        | .ok loc => (.ok { wd with location := loc }, tr ++ [.reverseGeo])
        | .error _ => (.ok wd, tr ++ [.reverseGeo])

/-- `CacheEntry` from db.go. -/
structure CacheEntryM where
  data : String
  expiresAt : Int
  createdAt : Int
deriving Repr, DecidableEq

/-- Environment of `GetWeather`: the fresh-fetch environment plus the
cache read outcome, the JSON decoder for stored payloads
(`json.Unmarshal`; `none` is a decode failure), and the cache write
outcome. -/
structure ServiceEnv where
  fetch : FetchEnv
  cacheRead : Except String (Option CacheEntryM)
  decode : String → Option WeatherData
  cacheWrite : Except String Unit

/-- The fresh-fetch path of `GetWeather` (steps 3 and 4): fetch, then
write through to the cache, swallowing any write error.  The third
component records whether the cache write succeeded. -/
def freshPath (env : ServiceEnv) :
    Except String WeatherData × List UpCall × Bool :=
  match fetchFreshWeather env.fetch with
  | (.error e, tr) => (.error e, tr, false)
  | (.ok wd, tr) =>
    match env.cacheWrite with
    | .ok _ => (.ok wd, tr, true)
    | .error _ => (.ok wd, tr, false)

/-- `GetWeather` from service.go, after coordinate rounding: read the
cache (a read error is logged and treated as a miss); on a hit whose
payload decodes, return it with the entry's own creation and expiry
timestamps substituted, issuing no upstream calls; otherwise fall through
to the fresh path. -/
def GetWeather (env : ServiceEnv) :
    Except String WeatherData × List UpCall × Bool :=
  let cached : Option CacheEntryM :=
    match env.cacheRead with
    | .error _ => none
    | .ok c => c
  match cached with
  | some entry =>
    match env.decode entry.data with
    | some wd =>
      (.ok { wd with cachedAt := entry.createdAt, expiresAt := entry.expiresAt },
       [], false)
    | none => freshPath env
  | none => freshPath env

/-! ### The cache store (db.go) -/

/-- Association-list lookup for the weather_cache table, keyed by the
rounded-coordinate pair (`id` is the primary key, so at most one row per
key). -/
def tblLookup : List ((ℚ × ℚ) × CacheEntryM) → ℚ × ℚ → Option CacheEntryM
  | [], _ => none
  | (k, e) :: rest, key => if k = key then some e else tblLookup rest key

/-- `GetCachedWeather` from db.go: return the row for the key only when
its expiry is strictly in the future (`expires_at > now`); a missing or
expired row is a miss (`ok none`), not an error. -/
def getCachedWeather (table : List ((ℚ × ℚ) × CacheEntryM)) (now : Int)
    (lat lon : ℚ) : Except String (Option CacheEntryM) :=
  match tblLookup table (lat, lon) with
  | some e => if now < e.expiresAt then .ok (some e) else .ok none
  | none => .ok none

/-- Coordinate rounding of `GetWeather`:
`math.Round(x*100)/100` (float64 modelled as exact rationals). -/
def roundCoord (q : ℚ) : ℚ :=
  (goRound (q * 100) : ℚ) / 100

/-! ### ReverseGeocode (client.go) -/

/-- The `address` object of the Nominatim reverse response. -/
structure Address where
  city : String
  town : String
  village : String
  state : String
  county : String
deriving Repr, DecidableEq

/-- `ReverseResponse` from client.go. -/
structure ReverseResponse where
  displayName : String
  address : Address
deriving Repr, DecidableEq

/-- The label-selection logic of `ReverseGeocode` (everything after the
HTTP fetch and JSON decode): prefer city, then town, then village, with a
state suffix when available; fall back to county (also state-suffixed),
then to the full display name; otherwise a not-found error. -/
def reverseGeocodeLabel (r : ReverseResponse) : Except String String :=
  let place :=
    if r.address.city ≠ "" then r.address.city
    else if r.address.town ≠ "" then r.address.town
    else if r.address.village ≠ "" then r.address.village
    else ""
  if place ≠ "" then
    if r.address.state ≠ "" then .ok (place ++ ", " ++ r.address.state)
    else .ok place
  else if r.address.county ≠ "" then
    if r.address.state ≠ "" then .ok (r.address.county ++ ", " ++ r.address.state)
    else .ok r.address.county
  else if r.displayName ≠ "" then .ok r.displayName
  else .error "location not found"

/-! ### Derived notions and concrete instances -/

/-- Periods of an optional forecast response, empty when absent. -/
def periodsOf : Option ForecastResponse → List Period
  | some f => f.periods
  | none => []

/-- The alerts payload passed to `transform`: the response when the
alerts call succeeded, an empty response otherwise. -/
def alertsOf (env : FetchEnv) : AlertsResponse :=
  match env.alertsRes with
  | .error _ => ⟨[]⟩
  | .ok a => a

/-- Display unit as the original claim words it: the substring after the
last colon in the code, or the raw code when no colon is present. -/
def claimedDisplayUnit (code : String) : String :=
  match lastIdxOf ':' code.toList with
  | some idx => String.mk (code.toList.drop (idx + 1))
  | none => code

/-- Display unit as the amended claim words it: the substring after the
last colon when a colon exists and is not the final character of the
code; the raw code otherwise. -/
def amendedDisplayUnit (code : String) : String :=
  match lastIdxOf ':' code.toList with
  | some idx =>
    if idx + 1 < code.toList.length then String.mk (code.toList.drop (idx + 1))
    else code
  | none => code

/-- A minimal concrete period used in witnesses and examples. -/
def samplePeriod (dt : Bool) (t : Int) : Period :=
  { name := "", startTime := "", isDaytime := dt, temperature := t,
    temperatureUnit := "F", popValue := 0, windSpeed := "",
    windDirection := "", icon := "", shortForecast := "",
    detailedForecast := "" }

/-- A fetch environment where every upstream call succeeds. -/
def fetchAllOk : FetchEnv :=
  { now := 0,
    pointMeta := .ok ⟨"f-url", "h-url", "s-url"⟩,
    forecastAt := fun _ => .ok ⟨[]⟩,
    stations := .ok [],
    latestObsAt := fun _ => .ok ⟨⟨none, ""⟩, ""⟩,
    alertsRes := .ok ⟨[]⟩,
    reverseGeo := .ok "Springfield, IL" }

/-- A fetch environment whose point-metadata call fails. -/
def fetchPointErr : FetchEnv :=
  { fetchAllOk with pointMeta := .error "boom" }

/-- A service environment on a cache miss whose point-metadata call
fails. -/
def svcPointErr : ServiceEnv :=
  { fetch := fetchPointErr, cacheRead := .ok none,
    decode := fun _ => none, cacheWrite := .ok () }

/-- A service environment on a cache miss whose cache write fails. -/
def svcWriteErr : ServiceEnv :=
  { fetch := fetchAllOk, cacheRead := .ok none,
    decode := fun _ => none, cacheWrite := .error "werr" }

/-- A service environment holding a fresh cache hit. -/
def svcHit : ServiceEnv :=
  { fetch := fetchAllOk, cacheRead := .ok (some ⟨"blob", 100, 50⟩),
    decode := fun _ => some (initWD 7), cacheWrite := .ok () }

/-! ## Helper lemmas -/

theorem hourlyLoop_eq_take (ps : List Period) :
    ∀ i, hourlyLoop ps i = (ps.take (5 - i)).map mkHourly := by
  induction ps with
  | nil => intro i; simp [hourlyLoop]
  | cons p rest ih =>
    intro i
    by_cases h : 5 ≤ i
    · have h0 : 5 - i = 0 := by omega
      simp [hourlyLoop, h, h0]
    · have h5 : 5 - i = (5 - (i + 1)) + 1 := by omega
      simp [hourlyLoop, h, h5, ih]

theorem dailyLoop_len_aux :
    ∀ (k : Nat) (l : List Period), l.length ≤ k → ∀ n, n < 5 →
      (dailyLoop l n).length ≤ 5 - n := by
  intro k
  induction k with
  | zero =>
    intro l hl n hn
    have : l = [] := List.length_eq_zero.mp (Nat.le_zero.mp hl)
    subst this; simp [dailyLoop]
  | succ k ih =>
    intro l hl n hn
    rcases l with _ | ⟨p, _ | ⟨next, rest⟩⟩
    · simp [dailyLoop]
    · simp [dailyLoop]; omega
    · simp only [List.length_cons] at hl
      by_cases hc : p.isDaytime && !next.isDaytime
      · by_cases h5 : 5 ≤ n + 1
        · simp [dailyLoop, hc, h5]; omega
        · have hb := ih rest (by omega) (n + 1) (by omega)
          simp [dailyLoop, hc, h5]
          omega
      · by_cases h5 : 5 ≤ n + 1
        · simp [dailyLoop, hc, h5]; omega
        · have hb := ih (next :: rest) (by simp; omega) (n + 1) (by omega)
          simp [dailyLoop, hc, h5]
          omega

theorem dailyLoop_len (l : List Period) : (dailyLoop l 0).length ≤ 5 :=
  dailyLoop_len_aux l.length l le_rfl 0 (by omega)

/-! Frame lemmas for the transform stages. -/

theorem addHourly_forecast (hc : Option ForecastResponse) (wd : WeatherData) :
    (addHourly hc wd).forecast = wd.forecast := by
  cases hc <;> rfl

theorem addHourly_alerts (hc : Option ForecastResponse) (wd : WeatherData) :
    (addHourly hc wd).alerts = wd.alerts := by
  cases hc <;> rfl

theorem addHourly_current (hc : Option ForecastResponse) (wd : WeatherData) :
    (addHourly hc wd).current = wd.current := by
  cases hc <;> rfl

theorem addHourly_hourly (hc : Option ForecastResponse) (wd : WeatherData) :
    (addHourly hc wd).hourly =
      some (wd.hourly.getD [] ++ hourlyLoop (periodsOf hc) 0) ∨
      (hc = none ∧ (addHourly hc wd).hourly = wd.hourly) := by
  cases hc with
  | none => exact Or.inr ⟨rfl, rfl⟩
  | some h => exact Or.inl rfl

theorem setCurrent_forecast (hc fc : Option ForecastResponse) (wd : WeatherData) :
    (setCurrent hc fc wd).forecast = wd.forecast := by
  unfold setCurrent
  cases firstPeriod hc <;> [cases firstPeriod fc <;> rfl; rfl]

theorem setCurrent_hourly (hc fc : Option ForecastResponse) (wd : WeatherData) :
    (setCurrent hc fc wd).hourly = wd.hourly := by
  unfold setCurrent
  cases firstPeriod hc <;> [cases firstPeriod fc <;> rfl; rfl]

theorem setCurrent_alerts (hc fc : Option ForecastResponse) (wd : WeatherData) :
    (setCurrent hc fc wd).alerts = wd.alerts := by
  unfold setCurrent
  cases firstPeriod hc <;> [cases firstPeriod fc <;> rfl; rfl]

theorem applyDaily_hourly (fc : Option ForecastResponse) (wd : WeatherData) :
    (applyDaily fc wd).hourly = wd.hourly := by
  unfold applyDaily
  rcases fc with _ | f
  · rfl
  · rcases h : f.periods with _ | ⟨p0, rest⟩ <;> simp [h]

theorem applyDaily_alerts (fc : Option ForecastResponse) (wd : WeatherData) :
    (applyDaily fc wd).alerts = wd.alerts := by
  unfold applyDaily
  rcases fc with _ | f
  · rfl
  · rcases h : f.periods with _ | ⟨p0, rest⟩ <;> simp [h]

theorem applyDaily_forecast (fc : Option ForecastResponse) (wd : WeatherData)
    (h : wd.forecast = some []) :
    (applyDaily fc wd).forecast = some (dailyLoop (periodsOf fc) 0) := by
  unfold applyDaily
  cases fc with
  | none => simpa [periodsOf, dailyLoop] using h
  | some f =>
    rcases hp : f.periods with _ | ⟨p0, rest⟩
    · simp [periodsOf, hp, dailyLoop, h]
    · simp [periodsOf, hp, h]

theorem applyObs_forecast (obs : Option ObservationResponse) (wd : WeatherData) :
    (applyObs obs wd).forecast = wd.forecast := by
  unfold applyObs
  cases observationTemperature obs <;> rfl

theorem applyObs_hourly (obs : Option ObservationResponse) (wd : WeatherData) :
    (applyObs obs wd).hourly = wd.hourly := by
  unfold applyObs
  cases observationTemperature obs <;> rfl

theorem applyObs_alerts (obs : Option ObservationResponse) (wd : WeatherData) :
    (applyObs obs wd).alerts = wd.alerts := by
  unfold applyObs
  cases observationTemperature obs <;> rfl

/-! Field characterization of `transform`'s output. -/

theorem transform_out (now : Int) (fc hc : Option ForecastResponse)
    (al : AlertsResponse) (obs : Option ObservationResponse) :
    ∃ wd, transform now fc hc al obs = .ok wd ∧
      wd.forecast = some (dailyLoop (periodsOf fc) 0) ∧
      wd.hourly = some ((periodsOf hc).take 5 |>.map mkHourly) ∧
      wd.alerts = some (alertsLoop al.features) := by
  refine ⟨_, rfl, ?_, ?_, ?_⟩
  · show (addAlerts al _).forecast = _
    rw [show ∀ (a : AlertsResponse) (w : WeatherData), (addAlerts a w).forecast = w.forecast
          from fun _ _ => rfl,
        applyObs_forecast]
    exact applyDaily_forecast fc _ (by
      rw [setCurrent_forecast, addHourly_forecast]; rfl)
  · show (addAlerts al _).hourly = _
    rw [show ∀ (a : AlertsResponse) (w : WeatherData), (addAlerts a w).hourly = w.hourly
          from fun _ _ => rfl,
        applyObs_hourly, applyDaily_hourly, setCurrent_hourly]
    rcases addHourly_hourly hc (initWD now) with h | ⟨hn, h⟩
    · rw [h]
      simp [initWD, hourlyLoop_eq_take]
    · rw [h, hn]
      simp [initWD, periodsOf]
  · show (addAlerts al _).alerts = _
    unfold addAlerts
    rw [applyObs_alerts, applyDaily_alerts, setCurrent_alerts, addHourly_alerts]
    rfl

/-! ## Claim theorems -/

/-- C10: whenever the daily forecast response and the alerts response are
present (the hourly forecast and the observation may each be absent, and
any of the lists may be empty), `transform` returns a snapshot with a nil
error — its error branch is unreachable — and the snapshot's forecast,
hourly and alerts lists are initialized (present), never nil. -/
theorem c10_transform_total (now : Int) (fc : ForecastResponse)
    (hc : Option ForecastResponse) (al : AlertsResponse)
    (obs : Option ObservationResponse) :
    ∃ wd, transform now (some fc) hc al obs = .ok wd ∧
      wd.forecast.isSome ∧ wd.hourly.isSome ∧ wd.alerts.isSome := by
  obtain ⟨wd, hok, hf, hh, ha⟩ := transform_out now (some fc) hc al obs
  exact ⟨wd, hok, by simp [hf], by simp [hh], by simp [ha]⟩

/-- C3: the produced snapshot's forecast and hourly lists never exceed 5
entries, and when an hourly forecast is supplied the hourly list is
exactly the first `min n 5` of its periods, in input order. -/
theorem c3_list_caps (now : Int) (fc hc : Option ForecastResponse)
    (al : AlertsResponse) (obs : Option ObservationResponse)
    (wd : WeatherData) (h : transform now fc hc al obs = .ok wd) :
    (wd.forecast.getD []).length ≤ 5 ∧ (wd.hourly.getD []).length ≤ 5 ∧
      ∀ hres, hc = some hres →
        wd.hourly = some ((hres.periods.take 5).map mkHourly) := by
  obtain ⟨wd2, h2, hf, hh, _⟩ := transform_out now fc hc al obs
  rw [h] at h2
  obtain rfl : wd = wd2 := by
    simpa using h2
  refine ⟨?_, ?_, ?_⟩
  · rw [hf]
    simp only [Option.getD_some]
    exact dailyLoop_len (periodsOf fc)
  · rw [hh]
    simp only [Option.getD_some, List.length_map]
    exact List.length_take_le 5 (periodsOf hc)
  · intro hres hhc
    rw [hh, hhc]
    rfl

/-- Witness for C3: seven hourly periods are capped to the first five. -/
theorem c3_list_caps_witness :
    ((transform 0 none
        (some ⟨[samplePeriod true 1, samplePeriod true 2, samplePeriod true 3,
                samplePeriod true 4, samplePeriod true 5, samplePeriod true 6,
                samplePeriod true 7]⟩) ⟨[]⟩ none).toOption.getD (initWD 0)
      |> fun wd =>
        (wd.forecast.getD []).length ≤ 5 ∧ (wd.hourly.getD []).length ≤ 5 ∧
          wd.hourly = some (([samplePeriod true 1, samplePeriod true 2,
            samplePeriod true 3, samplePeriod true 4, samplePeriod true 5,
            samplePeriod true 6, samplePeriod true 7].take 5).map mkHourly)) := by
  have h := c3_list_caps 0 none
    (some ⟨[samplePeriod true 1, samplePeriod true 2, samplePeriod true 3,
            samplePeriod true 4, samplePeriod true 5, samplePeriod true 6,
            samplePeriod true 7]⟩) ⟨[]⟩ none
    ((transform 0 none
        (some ⟨[samplePeriod true 1, samplePeriod true 2, samplePeriod true 3,
                samplePeriod true 4, samplePeriod true 5, samplePeriod true 6,
                samplePeriod true 7]⟩) ⟨[]⟩ none).toOption.getD (initWD 0)) rfl
  exact ⟨h.1, h.2.1, h.2.2 _ rfl⟩

/-- C1: in the daily loop, a daytime period immediately followed by a
nighttime period is paired into one entry (daytime temperature as high,
night temperature as low, the larger precipitation probability) and
iteration advances past both; a daytime period followed by another
daytime period, a trailing daytime period, and a standalone nighttime
period each yield one entry with their own temperature as both high and
low; at most 5 entries are ever produced; and the input
[day 70°, night 50°, day 72°] yields exactly the 2 entries
high 70 / low 50 and high 72 / low 72. -/
theorem c1_daily_pairing :
    (∀ (p next : Period) (rest : List Period) (n : Nat),
        n + 1 < 5 → p.isDaytime = true → next.isDaytime = false →
        ∃ e, dailyLoop (p :: next :: rest) n = e :: dailyLoop rest (n + 1) ∧
          e.highTemp = p.temperature ∧ e.lowTemp = next.temperature ∧
          e.precipChance = max p.popValue next.popValue) ∧
    (∀ (p next : Period) (rest : List Period) (n : Nat),
        n + 1 < 5 → p.isDaytime = true → next.isDaytime = true →
        ∃ e, dailyLoop (p :: next :: rest) n =
            e :: dailyLoop (next :: rest) (n + 1) ∧
          e.highTemp = p.temperature ∧ e.lowTemp = p.temperature) ∧
    (∀ (p : Period) (n : Nat),
        ∃ e, dailyLoop [p] n = [e] ∧
          e.highTemp = p.temperature ∧ e.lowTemp = p.temperature) ∧
    (∀ (p next : Period) (rest : List Period) (n : Nat),
        n + 1 < 5 → p.isDaytime = false →
        ∃ e, dailyLoop (p :: next :: rest) n =
            e :: dailyLoop (next :: rest) (n + 1) ∧
          e.highTemp = p.temperature ∧ e.lowTemp = p.temperature) ∧
    (∀ l : List Period, (dailyLoop l 0).length ≤ 5) ∧
    (∃ wd, transform 0
        (some ⟨[samplePeriod true 70, samplePeriod false 50,
                samplePeriod true 72]⟩) none ⟨[]⟩ none = .ok wd ∧
      ∃ e1 e2, wd.forecast = some [e1, e2] ∧
        e1.highTemp = 70 ∧ e1.lowTemp = 50 ∧
        e2.highTemp = 72 ∧ e2.lowTemp = 72) := by
  refine ⟨?_, ?_, ?_, ?_, dailyLoop_len, ?_⟩
  · intro p next rest n hn hd hnn
    refine ⟨mkPairedDay p next, ?_, rfl, rfl, ?_⟩
    · have hc : (p.isDaytime && !next.isDaytime) = true := by
        simp [hd, hnn]
      simp [dailyLoop, hc, show ¬ 5 ≤ n + 1 by omega]
    · show (if next.popValue > p.popValue then next.popValue else p.popValue) = _
      split
      · exact (max_eq_right (by omega)).symm
      · exact (max_eq_left (by omega)).symm
  · intro p next rest n hn hd hnd
    refine ⟨mkDay p, ?_, rfl, rfl⟩
    have hc : (p.isDaytime && !next.isDaytime) = false := by
      simp [hd, hnd]
    simp [dailyLoop, hc, show ¬ 5 ≤ n + 1 by omega]
  · intro p n
    exact ⟨mkDay p, rfl, rfl, rfl⟩
  · intro p next rest n hn hd
    refine ⟨mkDay p, ?_, rfl, rfl⟩
    have hc : (p.isDaytime && !next.isDaytime) = false := by
      simp [hd]
    simp [dailyLoop, hc, show ¬ 5 ≤ n + 1 by omega]
  · exact ⟨_, rfl, _, _, rfl, rfl, rfl, rfl, rfl⟩

/-- Witness for C1: the paired-entry equation at day 70° / night 50°. -/
theorem c1_daily_pairing_witness :
    ∃ e, dailyLoop [samplePeriod true 70, samplePeriod false 50] 0 =
        e :: dailyLoop [] 1 ∧
      e.highTemp = 70 ∧ e.lowTemp = 50 ∧ e.precipChance = max 0 0 :=
  c1_daily_pairing.1 (samplePeriod true 70) (samplePeriod false 50) [] 0
    (by omega) rfl rfl

/-- C2 (code bug): with both the daily and hourly forecasts absent and a
valid 22 °C observation present, `transform` sets the current temperature
to 72 but leaves the current high and low at their zero values — it does
not seed them from the observation, contradicting the repository's own
test `TestTransform_ObservationSetsHighLowWhenNoForecasts`, which expects
both to be 72. -/
theorem c2_observation_highlow_bug :
    ∃ wd, transform 0 none none ⟨[]⟩
        (some ⟨⟨some 22, "wmoUnit:degC"⟩, "Fair"⟩) = .ok wd ∧
      wd.current.temperature = 72 ∧
      wd.current.highTemp = 0 ∧ wd.current.lowTemp = 0 ∧
      wd.current.highTemp ≠ 72 ∧ wd.current.lowTemp ≠ 72 := by
  have hobs : observationTemperature
      (some ⟨⟨some 22, "wmoUnit:degC"⟩, "Fair"⟩) = some (72, "F") := by
    have hs : goHasSuffix "wmoUnit:degC" "degC" = true := by decide
    simp only [observationTemperature, hs, if_true]
    rw [goRound, if_pos (by norm_num)]
    norm_num
  refine ⟨_, rfl, ?_, rfl, rfl, by decide, by decide⟩
  show (addAlerts _ (applyObs _ _)).current.temperature = 72
  simp [addAlerts, applyObs, hobs]

/-! ### C6: observation temperature conversion -/

theorem goRound_close (q : ℚ) : |q - (goRound q : ℚ)| ≤ 1 / 2 := by
  unfold goRound
  split
  · rw [abs_le]
    have h1 : ((⌊q + 1 / 2⌋ : Int) : ℚ) ≤ q + 1 / 2 := Int.floor_le _
    have h2 : q + 1 / 2 < (⌊q + 1 / 2⌋ : Int) + 1 := Int.lt_floor_add_one _
    constructor <;> push_cast at h1 h2 ⊢ <;> linarith
  · rw [abs_le]
    have h1 : q - 1 / 2 ≤ ((⌈q - 1 / 2⌉ : Int) : ℚ) := Int.le_ceil _
    have h2 : ((⌈q - 1 / 2⌉ : Int) : ℚ) < (q - 1 / 2) + 1 := Int.ceil_lt_add_one _
    constructor <;> push_cast at h1 h2 ⊢ <;> linarith

theorem goRound_tie_away (q : ℚ) (h : |q - (goRound q : ℚ)| = 1 / 2) :
    |(goRound q : ℚ)| = |q| + 1 / 2 := by
  by_cases hq : 0 ≤ q
  · have hr : goRound q = ⌊q + 1 / 2⌋ := by rw [goRound, if_pos hq]
    rw [hr] at h ⊢
    have h2 : q + 1 / 2 < (⌊q + 1 / 2⌋ : ℚ) + 1 := Int.lt_floor_add_one _
    rcases (abs_eq (by norm_num : (0 : ℚ) ≤ 1 / 2)).mp h with h0 | h0
    · exfalso; linarith
    · have hf : ((⌊q + 1 / 2⌋ : Int) : ℚ) = q + 1 / 2 := by linarith
      rw [hf, abs_of_nonneg (by linarith : (0 : ℚ) ≤ q + 1 / 2),
        abs_of_nonneg hq]
  · push_neg at hq
    have hr : goRound q = ⌈q - 1 / 2⌉ := by rw [goRound, if_neg (by linarith)]
    rw [hr] at h ⊢
    have h1 : q - 1 / 2 ≤ ((⌈q - 1 / 2⌉ : Int) : ℚ) := Int.le_ceil _
    have h2 : ((⌈q - 1 / 2⌉ : Int) : ℚ) < (q - 1 / 2) + 1 := Int.ceil_lt_add_one _
    rcases (abs_eq (by norm_num : (0 : ℚ) ≤ 1 / 2)).mp h with h0 | h0
    · have hc : ((⌈q - 1 / 2⌉ : Int) : ℚ) = q - 1 / 2 := by linarith
      rw [hc, abs_of_neg (by linarith : q - 1 / 2 < 0), abs_of_neg hq]
      ring
    · exfalso; linarith

/-- C6 (amended): Celsius-suffixed codes convert to Fahrenheit and round
to the nearest integer with ties away from zero, displayed as "F";
Fahrenheit-suffixed codes round the value the same way, displayed as "F";
any other code rounds the value and displays the substring after the last
colon when a colon exists and is not the final character of the code, and
the raw code otherwise.  Concretely 20 °C gives 68 "F", 68.5 °F gives 69
"F", and "wmoUnit:degK" displays as "degK". -/
theorem c6_unit_conversion_amended :
    (∀ (o : ObservationResponse) (q : ℚ), o.temperature.value = some q →
        goHasSuffix o.temperature.unitCode "degC" = true →
        ∃ r, observationTemperature (some o) = some (r, "F") ∧
          |q * 9 / 5 + 32 - (r : ℚ)| ≤ 1 / 2 ∧
          (|q * 9 / 5 + 32 - (r : ℚ)| = 1 / 2 →
            |(r : ℚ)| = |q * 9 / 5 + 32| + 1 / 2)) ∧
    (∀ (o : ObservationResponse) (q : ℚ), o.temperature.value = some q →
        goHasSuffix o.temperature.unitCode "degC" = false →
        goHasSuffix o.temperature.unitCode "degF" = true →
        ∃ r, observationTemperature (some o) = some (r, "F") ∧
          |q - (r : ℚ)| ≤ 1 / 2 ∧
          (|q - (r : ℚ)| = 1 / 2 → |(r : ℚ)| = |q| + 1 / 2)) ∧
    (∀ (o : ObservationResponse) (q : ℚ), o.temperature.value = some q →
        goHasSuffix o.temperature.unitCode "degC" = false →
        goHasSuffix o.temperature.unitCode "degF" = false →
        ∃ r, observationTemperature (some o) =
            some (r, amendedDisplayUnit o.temperature.unitCode) ∧
          |q - (r : ℚ)| ≤ 1 / 2) ∧
    observationTemperature (some ⟨⟨some 20, "degC"⟩, ""⟩) = some (68, "F") ∧
    observationTemperature (some ⟨⟨some (137 / 2), "degF"⟩, ""⟩) = some (69, "F") ∧
    observationTemperature (some ⟨⟨some 5, "wmoUnit:degK"⟩, ""⟩) =
      some (5, "degK") := by
  have h20 : observationTemperature (some ⟨⟨some 20, "degC"⟩, ""⟩) =
      some (68, "F") := by
    have hs : goHasSuffix "degC" "degC" = true := by decide
    simp only [observationTemperature, hs, if_true]
    rw [goRound, if_pos (by norm_num)]
    norm_num
  have h685 : observationTemperature (some ⟨⟨some (137 / 2), "degF"⟩, ""⟩) =
      some (69, "F") := by
    have hsC : goHasSuffix "degF" "degC" = false := by decide
    have hsF : goHasSuffix "degF" "degF" = true := by decide
    simp only [observationTemperature, hsC, hsF, if_true, Bool.false_eq_true,
      if_false]
    rw [goRound, if_pos (by norm_num)]
    norm_num
  have hK : observationTemperature (some ⟨⟨some 5, "wmoUnit:degK"⟩, ""⟩) =
      some (5, "degK") := by
    have hsC : goHasSuffix "wmoUnit:degK" "degC" = false := by decide
    have hsF : goHasSuffix "wmoUnit:degK" "degF" = false := by decide
    have hdu : defaultDisplayUnit "wmoUnit:degK" = "degK" := by decide
    simp only [observationTemperature, hsC, hsF, Bool.false_eq_true, if_false,
      hdu]
    rw [goRound, if_pos (by norm_num)]
    norm_num
  refine ⟨?_, ?_, ?_, h20, h685, hK⟩
  · intro o q hv hC
    refine ⟨goRound (q * 9 / 5 + 32), ?_, goRound_close _, goRound_tie_away _⟩
    simp [observationTemperature, hv, hC]
  · intro o q hv hC hF
    refine ⟨goRound q, ?_, goRound_close _, goRound_tie_away _⟩
    simp [observationTemperature, hv, hC, hF]
  · intro o q hv hC hF
    refine ⟨goRound q, ?_, goRound_close _⟩
    have hdu : defaultDisplayUnit o.temperature.unitCode =
        amendedDisplayUnit o.temperature.unitCode := by
      unfold defaultDisplayUnit amendedDisplayUnit
      rfl
    simp [observationTemperature, hv, hC, hF, hdu]

/-- Witness for C6's amended theorem: the Celsius case at 20 °C. -/
theorem c6_unit_conversion_amended_witness :
    ∃ r, observationTemperature (some ⟨⟨some 20, "degC"⟩, ""⟩) =
        some (r, "F") ∧
      |(20 : ℚ) * 9 / 5 + 32 - (r : ℚ)| ≤ 1 / 2 ∧
      (|(20 : ℚ) * 9 / 5 + 32 - (r : ℚ)| = 1 / 2 →
        |(r : ℚ)| = |(20 : ℚ) * 9 / 5 + 32| + 1 / 2) :=
  c6_unit_conversion_amended.1 ⟨⟨some 20, "degC"⟩, ""⟩ 20 rfl (by decide)

/-- Counterexample for C6 as stated: for the unit code "wmoUnit:", whose
last colon is its final character, the code displays the raw code, while
the claim's "substring after the last colon" is the empty string. -/
theorem c6_unit_conversion_cex :
    observationTemperature (some ⟨⟨some 5, "wmoUnit:"⟩, ""⟩) =
      some (5, "wmoUnit:") ∧
    claimedDisplayUnit "wmoUnit:" = "" ∧ ("wmoUnit:" : String) ≠ "" := by
  refine ⟨?_, by decide, by decide⟩
  have hsC : goHasSuffix "wmoUnit:" "degC" = false := by decide
  have hsF : goHasSuffix "wmoUnit:" "degF" = false := by decide
  have hdu : defaultDisplayUnit "wmoUnit:" = "wmoUnit:" := by decide
  simp only [observationTemperature, hsC, hsF, Bool.false_eq_true, if_false, hdu]
  rw [goRound, if_pos (by norm_num)]
  norm_num

/-! ### C7: the observation override is a frame-preserving update -/

theorem applyObs_none (wd : WeatherData) : applyObs none wd = wd := rfl

theorem observationTemperature_none : observationTemperature none = none := rfl

/-- C7: when the observation carries a usable temperature, the produced
snapshot differs from the one computed without any observation only in
the current temperature and its unit: the short description,
precipitation, wind, icon, high/low, and the forecast, hourly and alert
lists are identical. -/
theorem c7_override_frame (now : Int) (fc hc : Option ForecastResponse)
    (al : AlertsResponse) (obs : Option ObservationResponse)
    (tu : Int × String) (h : observationTemperature obs = some tu) :
    ∃ wd wd0, transform now fc hc al obs = .ok wd ∧
      transform now fc hc al none = .ok wd0 ∧
      wd.current.temperature = tu.1 ∧
      wd.current.temperatureUnit = tu.2 ∧
      wd.current.shortForecast = wd0.current.shortForecast ∧
      wd.current.precipitation = wd0.current.precipitation ∧
      wd.current.windSpeed = wd0.current.windSpeed ∧
      wd.current.windDirection = wd0.current.windDirection ∧
      wd.current.icon = wd0.current.icon ∧
      wd.current.highTemp = wd0.current.highTemp ∧
      wd.current.lowTemp = wd0.current.lowTemp ∧
      wd.forecast = wd0.forecast ∧ wd.hourly = wd0.hourly ∧
      wd.alerts = wd0.alerts := by
  refine ⟨_, _, rfl, rfl, ?_, ?_, ?_, ?_, ?_, ?_, ?_, ?_, ?_, ?_, ?_, ?_⟩ <;>
    simp [transform, addAlerts, applyObs, h, observationTemperature_none]

/-- Witness for C7 at a concrete 20 °C observation with a one-period
daily forecast. -/
theorem c7_override_frame_witness :
    ∃ wd wd0, transform 0 (some ⟨[samplePeriod true 75]⟩) none ⟨[]⟩
        (some ⟨⟨some 20, "degC"⟩, ""⟩) = .ok wd ∧
      transform 0 (some ⟨[samplePeriod true 75]⟩) none ⟨[]⟩ none = .ok wd0 ∧
      wd.current.temperature = (68, "F").1 ∧
      wd.current.temperatureUnit = (68, "F").2 ∧
      wd.current.shortForecast = wd0.current.shortForecast ∧
      wd.current.precipitation = wd0.current.precipitation ∧
      wd.current.windSpeed = wd0.current.windSpeed ∧
      wd.current.windDirection = wd0.current.windDirection ∧
      wd.current.icon = wd0.current.icon ∧
      wd.current.highTemp = wd0.current.highTemp ∧
      wd.current.lowTemp = wd0.current.lowTemp ∧
      wd.forecast = wd0.forecast ∧ wd.hourly = wd0.hourly ∧
      wd.alerts = wd0.alerts := by
  apply c7_override_frame 0 (some ⟨[samplePeriod true 75]⟩) none ⟨[]⟩
    (some ⟨⟨some 20, "degC"⟩, ""⟩) (68, "F")
  have hs : goHasSuffix "degC" "degC" = true := by decide
  simp only [observationTemperature, hs, if_true]
  rw [goRound, if_pos (by norm_num)]
  norm_num

/-! ### C9: reverse geocode label selection -/

/-- C9: `ReverseGeocode` picks the first non-empty of city, town,
village, county (so a populated city always wins over a populated town),
suffixes the label with ", state" whenever the state is non-empty, falls
back to the full display name when all four are empty, and errors when
that too is empty. -/
theorem c9_reverse_label (r : ReverseResponse) :
    (r.address.city ≠ "" →
      reverseGeocodeLabel r = .ok (if r.address.state ≠ ""
        then r.address.city ++ ", " ++ r.address.state else r.address.city)) ∧
    (r.address.city = "" → r.address.town ≠ "" →
      reverseGeocodeLabel r = .ok (if r.address.state ≠ ""
        then r.address.town ++ ", " ++ r.address.state else r.address.town)) ∧
    (r.address.city = "" → r.address.town = "" → r.address.village ≠ "" →
      reverseGeocodeLabel r = .ok (if r.address.state ≠ ""
        then r.address.village ++ ", " ++ r.address.state
        else r.address.village)) ∧
    (r.address.city = "" → r.address.town = "" → r.address.village = "" →
      r.address.county ≠ "" →
      reverseGeocodeLabel r = .ok (if r.address.state ≠ ""
        then r.address.county ++ ", " ++ r.address.state
        else r.address.county)) ∧
    (r.address.city = "" → r.address.town = "" → r.address.village = "" →
      r.address.county = "" → r.displayName ≠ "" →
      reverseGeocodeLabel r = .ok r.displayName) ∧
    (r.address.city = "" → r.address.town = "" → r.address.village = "" →
      r.address.county = "" → r.displayName = "" →
      reverseGeocodeLabel r = .error "location not found") := by
  refine ⟨?_, ?_, ?_, ?_, ?_, ?_⟩
  · intro hc
    by_cases hs : r.address.state = "" <;> simp [reverseGeocodeLabel, hc, hs]
  · intro hc ht
    by_cases hs : r.address.state = "" <;>
      simp [reverseGeocodeLabel, hc, ht, hs]
  · intro hc ht hv
    by_cases hs : r.address.state = "" <;>
      simp [reverseGeocodeLabel, hc, ht, hv, hs]
  · intro hc ht hv hco
    by_cases hs : r.address.state = "" <;>
      simp [reverseGeocodeLabel, hc, ht, hv, hco, hs]
  · intro hc ht hv hco hd
    simp [reverseGeocodeLabel, hc, ht, hv, hco, hd]
  · intro hc ht hv hco hd
    simp [reverseGeocodeLabel, hc, ht, hv, hco, hd]

/-- Witness for C9: with both city and town populated, the city is
chosen (with the state suffix). -/
theorem c9_reverse_label_witness :
    reverseGeocodeLabel ⟨"full name",
        ⟨"Springfield", "Shelbyville", "", "IL", ""⟩⟩ =
      .ok (if ((⟨"full name",
          ⟨"Springfield", "Shelbyville", "", "IL", ""⟩⟩ :
            ReverseResponse)).address.state ≠ ""
        then "Springfield" ++ ", " ++ "IL" else "Springfield") :=
  (c9_reverse_label ⟨"full name",
    ⟨"Springfield", "Shelbyville", "", "IL", ""⟩⟩).1 (by decide)

/-! ### Service-layer lemmas -/

theorem addHourly_location (hc : Option ForecastResponse) (wd : WeatherData) :
    (addHourly hc wd).location = wd.location := by
  cases hc <;> rfl

theorem setCurrent_location (hc fc : Option ForecastResponse)
    (wd : WeatherData) : (setCurrent hc fc wd).location = wd.location := by
  unfold setCurrent
  cases firstPeriod hc <;> [cases firstPeriod fc <;> rfl; rfl]

theorem applyDaily_location (fc : Option ForecastResponse) (wd : WeatherData) :
    (applyDaily fc wd).location = wd.location := by
  unfold applyDaily
  rcases fc with _ | f
  · rfl
  · rcases h : f.periods with _ | ⟨p0, rest⟩ <;> simp [h]

theorem applyObs_location (obs : Option ObservationResponse)
    (wd : WeatherData) : (applyObs obs wd).location = wd.location := by
  unfold applyObs
  cases observationTemperature obs <;> rfl

theorem transform_location (now : Int) (fc hc : Option ForecastResponse)
    (al : AlertsResponse) (obs : Option ObservationResponse)
    (wd : WeatherData) (h : transform now fc hc al obs = .ok wd) :
    wd.location = "" := by
  obtain rfl : (addAlerts al (applyObs obs (applyDaily fc
      (setCurrent hc fc (addHourly hc (initWD now)))))) = wd := by
    simpa [transform] using h
  show (addAlerts _ _).location = ""
  unfold addAlerts
  rw [applyObs_location, applyDaily_location, setCurrent_location,
    addHourly_location]
  rfl

theorem hourlyFetch_trace (env : FetchEnv) (pt : PointProps) :
    (hourlyFetch env pt).2 = [] ∨
      (hourlyFetch env pt).2 = [UpCall.hourlyForecast] := by
  unfold hourlyFetch
  split
  · rcases env.forecastAt pt.forecastHourly <;> simp
  · simp

theorem obsFetch_trace (env : FetchEnv) (pt : PointProps) :
    (obsFetch env pt).2 = [] ∨ (obsFetch env pt).2 = [UpCall.obsStations] ∨
      (obsFetch env pt).2 = [UpCall.obsStations, UpCall.latestObs] := by
  unfold obsFetch
  split
  · rcases hs : env.stations with e | ss
    · simp
    · rcases ss with _ | ⟨s0, ss⟩
      · simp
      · rcases ho : env.latestObsAt s0 <;> simp [ho]
  · simp

theorem hourlyFetch_err (env : FetchEnv) (pt : PointProps) (e : String)
    (h : env.forecastAt pt.forecastHourly = .error e) :
    (hourlyFetch env pt).1 = none := by
  unfold hourlyFetch
  split
  · simp [h]
  · rfl

theorem ffw_point_error (env : FetchEnv) (e : String)
    (h : env.pointMeta = .error e) :
    fetchFreshWeather env =
      (.error ("failed to get point metadata: " ++ e), [UpCall.pointMeta]) := by
  simp [fetchFreshWeather, h]

theorem ffw_daily_error (env : FetchEnv) (pt : PointProps) (e : String)
    (hpt : env.pointMeta = .ok pt)
    (hfc : env.forecastAt pt.forecast = .error e) :
    (fetchFreshWeather env).1 = .error ("failed to get forecast: " ++ e) := by
  simp [fetchFreshWeather, hpt, hfc]

/-- When point metadata and the daily forecast both succeed, the fresh
fetch returns a snapshot: the one computed by `transform`, with the
reverse-geocoded location attached when that call succeeded. -/
theorem ffw_ok (env : FetchEnv) (pt : PointProps) (fc : ForecastResponse)
    (hpt : env.pointMeta = .ok pt)
    (hfc : env.forecastAt pt.forecast = .ok fc) :
    ∃ wd0 wd,
      transform env.now (some fc) (hourlyFetch env pt).1 (alertsOf env)
          (obsFetch env pt).1 = .ok wd0 ∧
      (fetchFreshWeather env).1 = .ok wd ∧
      ((∃ loc, env.reverseGeo = .ok loc ∧ wd = { wd0 with location := loc }) ∨
        (∃ e, env.reverseGeo = .error e ∧ wd = wd0)) := by
  obtain ⟨wd0, h0⟩ : ∃ wd0, transform env.now (some fc) (hourlyFetch env pt).1
      (alertsOf env) (obsFetch env pt).1 = .ok wd0 := ⟨_, rfl⟩
  rcases hr : env.reverseGeo with e2 | loc
  · refine ⟨wd0, wd0, h0, ?_, Or.inr ⟨e2, rfl, rfl⟩⟩
    unfold fetchFreshWeather
    rw [hpt]
    rcases ha : env.alertsRes with e | a
    · have h0' : transform env.now (some fc) (hourlyFetch env pt).1 ⟨[]⟩
          (obsFetch env pt).1 = .ok wd0 := by
        rw [← h0]; simp [alertsOf, ha]
      simp [hfc, ha, h0', hr]
    · have h0' : transform env.now (some fc) (hourlyFetch env pt).1 a
          (obsFetch env pt).1 = .ok wd0 := by
        rw [← h0]; simp [alertsOf, ha]
      simp [hfc, ha, h0', hr]
  · refine ⟨wd0, { wd0 with location := loc }, h0, ?_,
      Or.inl ⟨loc, rfl, rfl⟩⟩
    unfold fetchFreshWeather
    rw [hpt]
    rcases ha : env.alertsRes with e | a
    · have h0' : transform env.now (some fc) (hourlyFetch env pt).1 ⟨[]⟩
          (obsFetch env pt).1 = .ok wd0 := by
        rw [← h0]; simp [alertsOf, ha]
      simp [hfc, ha, h0', hr]
    · have h0' : transform env.now (some fc) (hourlyFetch env pt).1 a
          (obsFetch env pt).1 = .ok wd0 := by
        rw [← h0]; simp [alertsOf, ha]
      simp [hfc, ha, h0', hr]

/-- No call site appears twice in a fresh fetch's trace: nothing is
retried within a request. -/
theorem ffw_trace_nodup (env : FetchEnv) :
    (fetchFreshWeather env).2.Nodup := by
  unfold fetchFreshWeather
  rcases hpt : env.pointMeta with e | pt
  · simp
  · have ht1 := hourlyFetch_trace env pt
    have ht2 := obsFetch_trace env pt
    rcases hfc : env.forecastAt pt.forecast with e | fc
    · simp only [hfc]
      rcases ht1 with h1 | h1 <;> rcases ht2 with h2 | h2 | h2 <;>
        simp [h1, h2]
    · simp only [hfc]
      rcases ha : env.alertsRes with e | a <;>
        rcases hr : env.reverseGeo with e2 | loc <;>
          simp only [ha, hr, transform] <;>
            rcases ht1 with h1 | h1 <;> rcases ht2 with h2 | h2 | h2 <;>
              simp [h1, h2]

theorem GetWeather_miss (env : ServiceEnv) (h : env.cacheRead = .ok none) :
    GetWeather env = freshPath env := by
  simp [GetWeather, h]

theorem GetWeather_readError (env : ServiceEnv) (e : String)
    (h : env.cacheRead = .error e) :
    GetWeather env = freshPath env := by
  simp [GetWeather, h]

theorem freshPath_ok (env : ServiceEnv) (wd : WeatherData)
    (tr : List UpCall) (h : fetchFreshWeather env.fetch = (.ok wd, tr)) :
    (freshPath env).1 = .ok wd := by
  unfold freshPath
  rw [h]
  rcases env.cacheWrite <;> rfl

theorem freshPath_error (env : ServiceEnv) (e : String) (tr : List UpCall)
    (h : fetchFreshWeather env.fetch = (.error e, tr)) :
    (freshPath env).1 = .error e := by
  unfold freshPath
  rw [h]

theorem freshPath_fst (env : ServiceEnv) :
    (freshPath env).1 = (fetchFreshWeather env.fetch).1 := by
  unfold freshPath
  rcases hf : fetchFreshWeather env.fetch with ⟨res, tr⟩
  rcases res with e | wd
  · simp [hf]
  · simp only [hf]
    rcases hw : env.cacheWrite <;> simp [hw]

theorem transform_fields (now : Int) (fc hc : Option ForecastResponse)
    (al : AlertsResponse) (obs : Option ObservationResponse)
    (wd : WeatherData) (h : transform now fc hc al obs = .ok wd) :
    wd.forecast = some (dailyLoop (periodsOf fc) 0) ∧
    wd.hourly = some ((periodsOf hc).take 5 |>.map mkHourly) ∧
    wd.alerts = some (alertsLoop al.features) := by
  obtain ⟨wd2, h2, hf, hh, ha⟩ := transform_out now fc hc al obs
  rw [h] at h2
  obtain rfl : wd = wd2 := by simpa using h2
  exact ⟨hf, hh, ha⟩

/-- C4: on the fresh-fetch path of `GetWeather` (a cache miss), a
point-metadata or primary daily-forecast failure fails the request with
an error; a failure of the hourly fetch, the stations fetch, the
latest-observation fetch, the alerts fetch or the reverse geocode still
yields a snapshot — with the hourly list empty, the alert list empty, or
the location unset, respectively — and no call site is ever executed
twice within one request. -/
theorem c4_fatal_calls :
    (∀ (env : ServiceEnv) (e : String), env.cacheRead = .ok none →
        env.fetch.pointMeta = .error e →
        (GetWeather env).1 =
          .error ("failed to get point metadata: " ++ e)) ∧
    (∀ (env : ServiceEnv) (pt : PointProps) (e : String),
        env.cacheRead = .ok none → env.fetch.pointMeta = .ok pt →
        env.fetch.forecastAt pt.forecast = .error e →
        (GetWeather env).1 = .error ("failed to get forecast: " ++ e)) ∧
    (∀ (env : ServiceEnv) (pt : PointProps) (fc : ForecastResponse),
        env.cacheRead = .ok none → env.fetch.pointMeta = .ok pt →
        env.fetch.forecastAt pt.forecast = .ok fc →
        ∃ wd, (GetWeather env).1 = .ok wd) ∧
    (∀ (env : ServiceEnv) (pt : PointProps) (fc : ForecastResponse)
        (e : String),
        env.cacheRead = .ok none → env.fetch.pointMeta = .ok pt →
        env.fetch.forecastAt pt.forecast = .ok fc →
        env.fetch.forecastAt pt.forecastHourly = .error e →
        ∃ wd, (GetWeather env).1 = .ok wd ∧ wd.hourly = some []) ∧
    (∀ (env : ServiceEnv) (pt : PointProps) (fc : ForecastResponse)
        (e : String),
        env.cacheRead = .ok none → env.fetch.pointMeta = .ok pt →
        env.fetch.forecastAt pt.forecast = .ok fc →
        env.fetch.stations = .error e →
        ∃ wd, (GetWeather env).1 = .ok wd) ∧
    (∀ (env : ServiceEnv) (pt : PointProps) (fc : ForecastResponse)
        (s0 : String) (ss : List String) (e : String),
        env.cacheRead = .ok none → env.fetch.pointMeta = .ok pt →
        env.fetch.forecastAt pt.forecast = .ok fc →
        env.fetch.stations = .ok (s0 :: ss) →
        env.fetch.latestObsAt s0 = .error e →
        ∃ wd, (GetWeather env).1 = .ok wd) ∧
    (∀ (env : ServiceEnv) (pt : PointProps) (fc : ForecastResponse)
        (e : String),
        env.cacheRead = .ok none → env.fetch.pointMeta = .ok pt →
        env.fetch.forecastAt pt.forecast = .ok fc →
        env.fetch.alertsRes = .error e →
        ∃ wd, (GetWeather env).1 = .ok wd ∧ wd.alerts = some []) ∧
    (∀ (env : ServiceEnv) (pt : PointProps) (fc : ForecastResponse)
        (e : String),
        env.cacheRead = .ok none → env.fetch.pointMeta = .ok pt →
        env.fetch.forecastAt pt.forecast = .ok fc →
        env.fetch.reverseGeo = .error e →
        ∃ wd, (GetWeather env).1 = .ok wd ∧ wd.location = "") ∧
    (∀ env : FetchEnv, (fetchFreshWeather env).2.Nodup) := by
  refine ⟨?_, ?_, ?_, ?_, ?_, ?_, ?_, ?_, ffw_trace_nodup⟩
  · intro env e h1 h2
    rw [GetWeather_miss env h1, freshPath_fst, ffw_point_error env.fetch e h2]
  · intro env pt e h1 h2 h3
    rw [GetWeather_miss env h1, freshPath_fst,
      ffw_daily_error env.fetch pt e h2 h3]
  · intro env pt fc h1 h2 h3
    obtain ⟨wd0, wd, _, hw, _⟩ := ffw_ok env.fetch pt fc h2 h3
    exact ⟨wd, by rw [GetWeather_miss env h1, freshPath_fst, hw]⟩
  · intro env pt fc e h1 h2 h3 h4
    obtain ⟨wd0, wd, h0, hw, hdisj⟩ := ffw_ok env.fetch pt fc h2 h3
    refine ⟨wd, by rw [GetWeather_miss env h1, freshPath_fst, hw], ?_⟩
    have hh := (transform_fields _ _ _ _ _ _ h0).2.1
    rw [hourlyFetch_err env.fetch pt e h4] at hh
    have hwd : wd.hourly = wd0.hourly := by
      rcases hdisj with ⟨loc, _, rfl⟩ | ⟨e2, _, rfl⟩ <;> rfl
    rw [hwd, hh]
    rfl
  · intro env pt fc e h1 h2 h3 _
    obtain ⟨wd0, wd, _, hw, _⟩ := ffw_ok env.fetch pt fc h2 h3
    exact ⟨wd, by rw [GetWeather_miss env h1, freshPath_fst, hw]⟩
  · intro env pt fc s0 ss e h1 h2 h3 _ _
    obtain ⟨wd0, wd, _, hw, _⟩ := ffw_ok env.fetch pt fc h2 h3
    exact ⟨wd, by rw [GetWeather_miss env h1, freshPath_fst, hw]⟩
  · intro env pt fc e h1 h2 h3 h4
    obtain ⟨wd0, wd, h0, hw, hdisj⟩ := ffw_ok env.fetch pt fc h2 h3
    refine ⟨wd, by rw [GetWeather_miss env h1, freshPath_fst, hw], ?_⟩
    have ha := (transform_fields _ _ _ _ _ _ h0).2.2
    have hem : alertsOf env.fetch = ⟨[]⟩ := by simp [alertsOf, h4]
    rw [hem] at ha
    have hwd : wd.alerts = wd0.alerts := by
      rcases hdisj with ⟨loc, _, rfl⟩ | ⟨e2, _, rfl⟩ <;> rfl
    rw [hwd, ha]
    rfl
  · intro env pt fc e h1 h2 h3 h4
    obtain ⟨wd0, wd, h0, hw, hdisj⟩ := ffw_ok env.fetch pt fc h2 h3
    refine ⟨wd, by rw [GetWeather_miss env h1, freshPath_fst, hw], ?_⟩
    rcases hdisj with ⟨loc, hr, rfl⟩ | ⟨e2, hr, rfl⟩
    · rw [h4] at hr
      exact absurd hr (by simp)
    · exact transform_location _ _ _ _ _ _ h0

/-- Witness for C4: a failing point-metadata call on a cache miss fails
the whole request. -/
theorem c4_fatal_calls_witness :
    (GetWeather svcPointErr).1 =
      .error ("failed to get point metadata: " ++ "boom") :=
  c4_fatal_calls.1 svcPointErr "boom" rfl rfl

/-- C5: Cache Store failures never propagate: a cache read error makes
`GetWeather` behave exactly as on a miss, still returning the fresh
snapshot when the fetch succeeds, and a cache write failure after a fresh
fetch still returns the freshly computed snapshot without error. -/
theorem c5_cache_failures_swallowed :
    (∀ (env : ServiceEnv) (e : String), env.cacheRead = .error e →
        GetWeather env = GetWeather { env with cacheRead := .ok none }) ∧
    (∀ (env : ServiceEnv) (e : String) (wd : WeatherData)
        (tr : List UpCall), env.cacheRead = .error e →
        fetchFreshWeather env.fetch = (.ok wd, tr) →
        (GetWeather env).1 = .ok wd) ∧
    (∀ (env : ServiceEnv) (e : String) (wd : WeatherData)
        (tr : List UpCall), env.cacheRead = .ok none →
        env.cacheWrite = .error e →
        fetchFreshWeather env.fetch = (.ok wd, tr) →
        (GetWeather env).1 = .ok wd) := by
  refine ⟨?_, ?_, ?_⟩
  · intro env e h
    rw [GetWeather_readError env e h, GetWeather_miss _ rfl]
    rfl
  · intro env e wd tr h1 h2
    rw [GetWeather_readError env e h1, freshPath_fst, h2]
  · intro env e wd tr h1 _ h3
    rw [GetWeather_miss env h1]
    exact freshPath_ok env wd tr h3

/-- Witness for C5: with a failing cache write, the fresh snapshot is
still returned. -/
theorem c5_cache_failures_swallowed_witness :
    ∃ wd, (GetWeather svcWriteErr).1 = .ok wd :=
  ⟨_, c5_cache_failures_swallowed.2.2 svcWriteErr "werr" _ _ rfl rfl rfl⟩

/-- C8: a fresh cache hit is returned immediately with the stored entry's
own creation and expiry timestamps substituted and no upstream calls; a
payload that fails to deserialize is treated exactly as a miss; and the
cache read reports an expired entry as a miss, never as an error. -/
theorem c8_cache_hit_semantics :
    (∀ (env : ServiceEnv) (entry : CacheEntryM) (wd : WeatherData),
        env.cacheRead = .ok (some entry) →
        env.decode entry.data = some wd →
        GetWeather env =
          (.ok { wd with cachedAt := entry.createdAt, expiresAt := entry.expiresAt }, [], false)) ∧
    (∀ (env : ServiceEnv) (entry : CacheEntryM),
        env.cacheRead = .ok (some entry) →
        env.decode entry.data = none →
        GetWeather env = GetWeather { env with cacheRead := .ok none }) ∧
    (∀ (table : List ((ℚ × ℚ) × CacheEntryM)) (now : Int) (lat lon : ℚ)
        (e : CacheEntryM), tblLookup table (lat, lon) = some e →
        ¬ now < e.expiresAt →
        getCachedWeather table now lat lon = .ok none) ∧
    (∀ (table : List ((ℚ × ℚ) × CacheEntryM)) (now : Int) (lat lon : ℚ)
        (e : CacheEntryM), tblLookup table (lat, lon) = some e →
        now < e.expiresAt →
        getCachedWeather table now lat lon = .ok (some e)) := by
  refine ⟨?_, ?_, ?_, ?_⟩
  · intro env entry wd h1 h2
    simp [GetWeather, h1, h2]
  · intro env entry h1 h2
    have hL : GetWeather env = freshPath env := by
      simp [GetWeather, h1, h2]
    rw [hL, GetWeather_miss _ rfl]
    rfl
  · intro table now lat lon e h1 h2
    simp [getCachedWeather, h1, h2]
  · intro table now lat lon e h1 h2
    simp [getCachedWeather, h1, h2]

/-- Witness for C8: a valid hit is returned with the entry's timestamps
and an empty call trace. -/
theorem c8_cache_hit_semantics_witness :
    GetWeather svcHit =
      (.ok { initWD 7 with cachedAt := 50, expiresAt := 100 }, [], false) :=
  c8_cache_hit_semantics.1 svcHit ⟨"blob", 100, 50⟩ (initWD 7) rfl rfl

end Wthr
